import Mathlib

/-!
Verification development for the GenAIAlchemist travel-booking system.

The embedding below follows the repository's code: the React chat client
(`ChatInterface.tsx`), the presentational cards (`FlightCard.tsx`,
`HotelCard.tsx`, `BookingConfirmation.tsx`), and — for the Flask backend
whose Python sources are not part of this tree (only its folder structure,
endpoint list and README contract are) — models built from the
specification, each marked `Modelled from the spec:` in its doc comment.
-/

namespace GenAIAlchemist

/-! ## Frontend data model (ChatInterface.tsx) -/

/-- The `dataType` of a structured message payload, from the `Message`
interface in `ChatInterface.tsx`:
`dataType?: 'flights' | 'hotels' | 'booking-confirmation'`. -/
inductive PayloadType where
  | flights
  | hotels
  | bookingConfirmation
deriving DecidableEq, Repr

/-- A flight offer, the shape consumed by `FlightCard.tsx`. -/
structure FlightOffer where
  airline : String
  flightNumber : String
  fromCity : String
  toCity : String
  departure : String
  arrival : String
  duration : String
  price : Nat
  date : String
deriving DecidableEq, Repr

/-- A hotel offer, the shape consumed by `HotelCard.tsx`. -/
structure HotelOffer where
  name : String
  location : String
  rating : Nat
  price : Nat
  amenities : List String
deriving DecidableEq, Repr

/-- A booking confirmation, the shape consumed by `BookingConfirmation.tsx`. -/
structure BookingData where
  bookingId : String
  bookingType : String
  details : String
  amount : Nat
  status : String
deriving DecidableEq, Repr

/-- The `data` field of a message: structured data for the cards
(`flights` / `hotels` / `booking-confirmation` payloads). -/
inductive Payload where
  | flightList (offers : List FlightOffer)
  | hotelList (offers : List HotelOffer)
  | booking (b : BookingData)
deriving DecidableEq, Repr

/-- Role of a chat message: `type: 'user' | 'ai'` in `ChatInterface.tsx`. -/
inductive Role where
  | user
  | ai
deriving DecidableEq, Repr

/-- The `Message` interface of `ChatInterface.tsx`:
`{id, type, content, timestamp, data?, dataType?}`. Timestamps are
modelled as `Nat` (milliseconds, as produced by `Date.now()`). -/
structure Message where
  id : String
  type : Role
  content : String
  timestamp : Nat
  data : Option Payload := none
  dataType : Option PayloadType := none
deriving DecidableEq, Repr

/-- The fallback backend URL baked into `ChatInterface.tsx`
(`API_BASE_URL` when `VITE_API_URL` is unset). -/
def API_BASE_URL : String :=
  "https://genaialchemist-backend-315210470033.us-central1.run.app"

/-! ## Session initialization (`initializeSession` in ChatInterface.tsx) -/

/-- Body of a successful `POST /getSession` response: `{session_id}`. -/
structure SessionResponse where
  session_id : String
deriving DecidableEq, Repr

/-- `initializeSession`: on `response.ok` the client stores
`data.session_id`; otherwise the session id stays as it was (`null`,
an error is only logged). -/
def initializeSession (prev : Option String) (ok : Bool)
    (resp : SessionResponse) : Option String :=
  if ok then some resp.session_id else prev

/-! ## Sending a message (`handleSendMessage` in ChatInterface.tsx) -/

/-- Body of a `POST /chat` response as read by the client:
`data.response` may be absent (the client substitutes a fallback). -/
structure ChatResponse where
  response : Option String
deriving DecidableEq, Repr

/-- The outcome of the `fetch` to `/chat` as observed by the client:
either a parsed JSON body, or a thrown error (a non-ok HTTP status or a
network failure — both land in the `catch` block with an error string). -/
inductive FetchOutcome where
  | success (resp : ChatResponse)
  | failure (err : String)
deriving DecidableEq, Repr

/-- The network request issued by `handleSendMessage`:
`POST /chat` with `{query, session_id, user_id}`. -/
structure ChatRequest where
  query : String
  session_id : String
  user_id : String
deriving DecidableEq, Repr

/-- The client-side state touched by `handleSendMessage`:
`messages`, `inputValue`, `isLoading`, `sessionId` (plus the fixed
`userId`). -/
structure ChatState where
  messages : List Message
  inputValue : String
  isLoading : Bool
  sessionId : Option String
  userId : String
deriving DecidableEq, Repr

/-- The user message appended first:
`{id: Date.now().toString(), type: 'user', content: inputValue,
timestamp: new Date()}` — no structured data. -/
def mkUserMessage (content : String) (now : Nat) : Message :=
  { id := toString now, type := Role.user, content := content,
    timestamp := now }

/-- The AI message built from a successful `/chat` response:
`content: data.response || "I'm sorry, I didn't receive a response."`.
JavaScript `||` is falsy on both an absent field and the empty string,
so either case yields the fallback text. `handleSendMessage` attaches no
structured data to it. -/
def mkAiMessage (resp : ChatResponse) (now : Nat) : Message :=
  { id := toString (now + 1), type := Role.ai,
    content :=
      match resp.response with
      | some t =>
          if t = "" then "I'm sorry, I didn't receive a response." else t
      | none => "I'm sorry, I didn't receive a response.",
    timestamp := now }

/-- The text of the error message appended in the `catch` block:
`` `I'm sorry, I encountered an error: ${message}. Please make sure the
backend API is running on ${API_BASE_URL}` ``. -/
def errorMessageContent (errMsg : String) : String :=
  "I'm sorry, I encountered an error: " ++ errMsg ++
    ". Please make sure the backend API is running on " ++ API_BASE_URL

/-- The error message appended in the `catch` block. -/
def mkErrorMessage (errMsg : String) (now : Nat) : Message :=
  { id := toString (now + 1), type := Role.ai,
    content := errorMessageContent errMsg, timestamp := now }

/-- `handleSendMessage`: guard
`if (!inputValue.trim() || isLoading || !sessionId) return;` then append
the user message, clear the input, set loading, issue the `/chat` request
and append either the AI message or the error message. Returns the new
state and the request issued (`none` when the guard fired and no network
call was made). -/
def handleSendMessage (st : ChatState) (now : Nat)
    (fetch : FetchOutcome) : ChatState × Option ChatRequest :=
  match st.sessionId with
  | none => (st, none)
  | some sid =>
    if st.inputValue.trim = "" ∨ st.isLoading then (st, none)
    else
      let userMessage := mkUserMessage st.inputValue now
      let req : ChatRequest :=
        { query := st.inputValue, session_id := sid, user_id := st.userId }
      match fetch with
      | FetchOutcome.success resp =>
          ({ st with
              messages := st.messages ++ [userMessage, mkAiMessage resp now],
              inputValue := "", isLoading := false }, some req)
      | FetchOutcome.failure e =>
          ({ st with
              messages := st.messages ++ [userMessage, mkErrorMessage e now],
              inputValue := "", isLoading := false }, some req)

/-! ## Card rendering (ChatInterface.tsx message body) -/

/-- A rendered card, as produced by the structured-data branches of the
message renderer in `ChatInterface.tsx`. -/
inductive Card where
  | flightCard (flight : FlightOffer)
  | hotelCard (hotel : HotelOffer)
  | bookingCard (b : BookingData)
deriving DecidableEq, Repr

/-- The structured-data rendering of one message:
`message.dataType === 'flights' && message.data` renders
`message.data.map((flight, index) => <FlightCard ... />)`, similarly for
hotels and booking-confirmation; any other combination renders nothing. -/
def renderCards (m : Message) : List Card :=
  match m.dataType, m.data with
  | some PayloadType.flights, some (Payload.flightList fs) =>
      fs.map Card.flightCard
  | some PayloadType.hotels, some (Payload.hotelList hs) =>
      hs.map Card.hotelCard
  | some PayloadType.bookingConfirmation, some (Payload.booking b) =>
      [Card.bookingCard b]
  | _, _ => []

/-! ## HotelCard.tsx -/

/-- The amenity badges shown by `HotelCard`:
`hotel.amenities.slice(0, 4).map(...)`. -/
def displayedAmenities (hotel : HotelOffer) : List String :=
  hotel.amenities.take 4

/-- `sub` occurs as a contiguous substring of `s` (on the underlying
character lists). -/
def containsSub (s sub : String) : Prop := sub.data <:+: s.data

/-! ## Orchestrator flights payload

Modelled from the spec: the Orchestrator Router (`backend/app.py` and
`backend/agents/`) is not among the available sources. Per §4.6 and
scenario A of §8, a flight-search turn produces an outgoing message whose
structured payload is the flight adapter's offer list, unmodified and in
the adapter's order, tagged `payload_type = flights`. -/

/-- Modelled from the spec: the Orchestrator's outgoing message for a
flight search — the adapter's offer list attached unmodified under the
`flights` tag. -/
def orchestratorFlightsMessage (text : String) (offers : List FlightOffer)
    (now : Nat) : Message :=
  { id := toString now, type := Role.ai, content := text, timestamp := now,
    data := some (Payload.flightList offers),
    dataType := some PayloadType.flights }

/-! ## Turn history

Modelled from the spec: the backend Session Store's turn history
(`backend/tools/memory.py`) is not among the available sources. Per §4.1,
`append_turn` is the sole mutator of a session's turn history and appends
at the end; turns are immutable once appended. A `Turn` has the same
shape as the client's `Message` (role, content, optional structured
payload, timestamp). -/

/-- A turn of a session's history: same shape as the client `Message`. -/
abbrev Turn := Message

/-- Modelled from the spec: `append_turn(session_id, Turn)` — append the
turn at the end of the history, touching nothing else. -/
def appendTurn (history : List Turn) (t : Turn) : List Turn := history ++ [t]

/-- Replaying a sequence of `append_turn` calls from an initial history:
the store's turn history after the whole append sequence. -/
def replayAppends (init : List Turn) (ts : List Turn) : List Turn :=
  ts.foldl appendTurn init

/-! ## Session Store

Modelled from the spec: the backend Session Store (`backend/tools/memory.py`
and the `/getSession` handler in `backend/app.py`) is not among the
available sources — only the folder structure and the endpoint list are.
The model follows §4.1 and §8 of the specification: `create_or_get` is
idempotent per `user_id` until eviction; an idle session is evicted and a
fresh id is issued. Session ids are opaque; the model draws them from a
monotone counter so freshness is expressible. -/

/-- One session-store entry for a user: the issued session id and the
time of last activity. -/
structure SessionEntry where
  sid : Nat
  lastActive : Nat
deriving DecidableEq, Repr

/-- Modelled from the spec: the Session Store's state — a table from
`user_id` to its live session entry, plus the counter from which fresh
session ids are drawn. -/
structure StoreState where
  table : List (String × SessionEntry)
  nextId : Nat
deriving DecidableEq, Repr

/-- The empty session store. -/
def StoreState.empty : StoreState := { table := [], nextId := 0 }

/-- Well-formedness of a store: every issued session id is below the
fresh-id counter. -/
def StoreState.Inv (st : StoreState) : Prop :=
  ∀ e ∈ st.table, e.2.sid < st.nextId

instance (st : StoreState) : Decidable st.Inv := by
  unfold StoreState.Inv; infer_instance

/-- Refresh the last-active time of every entry for `uid`. -/
def refreshUser (l : List (String × SessionEntry)) (uid : String)
    (now : Nat) : List (String × SessionEntry) :=
  l.map fun e => if e.1 = uid then (e.1, { e.2 with lastActive := now }) else e

/-- Modelled from the spec: `create_or_get(user_id)` — return the live
session for `uid` (refreshing its activity time) or create a fresh one. -/
def createOrGet (st : StoreState) (uid : String) (now : Nat) :
    StoreState × Nat :=
  match st.table.lookup uid with
  | some e => ({ st with table := refreshUser st.table uid now }, e.sid)
  | none =>
      ({ table := (uid, ⟨st.nextId, now⟩) :: st.table,
         nextId := st.nextId + 1 }, st.nextId)

/-- Modelled from the spec: `evict_if_idle` sweep — drop every session
idle beyond `threshold` at time `now`. -/
def evictIdle (st : StoreState) (now threshold : Nat) : StoreState :=
  { st with table := st.table.filter fun e => now - e.2.lastActive ≤ threshold }

/-! ## Parallel Dispatch

Modelled from the spec: the backend's parallel agents
(`backend/agents/parallel_agents/`) are not among the available sources.
The model follows §4.3: each `ToolCall` runs independently and may finish
in any order (the completion schedule below is an arbitrary permutation of
the slot indices); a failed or timed-out call contributes a
`ToolResult{status: error}` in its slot; results are merged back into the
caller's slot order. -/

/-- `ToolCall`: `{tool_name, args}`. -/
structure ToolCall where
  tool_name : String
  args : String
deriving DecidableEq, Repr

/-- Status of a `ToolResult`: `ok | error`. -/
inductive ToolStatus where
  | ok
  | error
deriving DecidableEq, Repr

/-- `ToolResult`: `{status, payload, latency}`. -/
structure ToolResult where
  status : ToolStatus
  payload : String
  latency : Nat
deriving DecidableEq, Repr

/-- The raw outcome of attempting one tool call: success with a payload,
or failure (provider error or timeout) with a message. Latency included. -/
inductive CallAttempt where
  | succeeded (payload : String) (latency : Nat)
  | failed (err : String) (latency : Nat)
deriving DecidableEq, Repr

/-- Wrap an attempt outcome as the `ToolResult` placed in the call's
slot: a failure becomes `status: error`, never an abort. -/
def resultOfAttempt : CallAttempt → ToolResult
  | CallAttempt.succeeded p l => { status := ToolStatus.ok, payload := p, latency := l }
  | CallAttempt.failed e l => { status := ToolStatus.error, payload := e, latency := l }

/-- The `ToolResult` of slot `i` of a batch, given the per-call behaviour
`attempt` of the external providers. -/
def slotResult (attempt : ToolCall → CallAttempt) (requests : List ToolCall)
    (i : Nat) : ToolResult :=
  resultOfAttempt (attempt (requests.getD i ⟨"", ""⟩))

/-- Modelled from the spec: `dispatch_many` with an explicit completion
schedule `sched` (the order in which the concurrent calls finish, an
arbitrary permutation of the slot indices). Each finishing call deposits
its result keyed by its slot; the merged output reads the slots back in
the caller's order. -/
def dispatchMany (attempt : ToolCall → CallAttempt)
    (requests : List ToolCall) (sched : List Nat) : List ToolResult :=
  let deposited : List (Nat × ToolResult) :=
    sched.map fun i => (i, slotResult attempt requests i)
  (List.range requests.length).map fun i =>
    (deposited.lookup i).getD (slotResult attempt requests i)

/-! ## Loop / Refinement Agent

Modelled from the spec: the backend's loop agents
(`backend/agents/loop_agents/`) are not among the available sources. The
model follows §4.4: invoke the wrapped Reasoning Agent; `Respond`
terminates, `AskClarification` suspends, `CallTool`/`Delegate` folds the
result into context and loops unless the iteration cap `N_max` is
reached, in which case a best-effort summary is returned. -/

/-- `AgentDecision`: the tagged variant produced by one Reasoning Agent
invocation. -/
inductive AgentDecision where
  | respond (text : String)
  | callTool (tool_name args : String)
  | delegate (sub_agent_id args : String)
  | askClarification (text : String)
deriving DecidableEq, Repr

/-- Outcome of one Loop/Refinement run: a final response, a suspension
awaiting the user's clarification, or the best-effort summary returned
when the iteration cap is reached. -/
inductive LoopOutcome where
  | responded (text : String)
  | clarify (text : String)
  | capSummary (text : String)
deriving DecidableEq, Repr

/-- Modelled from the spec: one Loop/Refinement run. `decide` is the
wrapped Reasoning Agent (oracle), `fold` folds an executed tool/delegate
result into the context, `summary` renders the best-effort summary.
Returns the outcome and the number of Reasoning-Agent invocations made. -/
def loopRun {Ctx : Type} (decide : Ctx → AgentDecision)
    (fold : Ctx → String → String → Ctx)
    (summary : Ctx → String) : Nat → Ctx → LoopOutcome × Nat
  | 0, ctx => (LoopOutcome.capSummary (summary ctx), 0)
  | fuel + 1, ctx =>
    match decide ctx with
    | AgentDecision.respond t => (LoopOutcome.responded t, 1)
    | AgentDecision.askClarification t => (LoopOutcome.clarify t, 1)
    | AgentDecision.callTool n a =>
        let r := loopRun decide fold summary fuel (fold ctx n a)
        (r.1, r.2 + 1)
    | AgentDecision.delegate i a =>
        let r := loopRun decide fold summary fuel (fold ctx i a)
        (r.1, r.2 + 1)

/-! ## Transactional Booking Agent

Modelled from the spec: the backend's transactional agents
(`backend/agents/transactional_agents/`) are not among the available
sources. The model follows §4.5: `Pending → Held → Confirmed` on
success; a `Held → Confirmed` failure triggers a compensating `release`
against the exact `hold_id` of the Held step, ending in `RolledBack`, or
in `Failed` when the release itself fails; a `Pending → Held` failure
goes directly to `Failed` with nothing to roll back. -/

/-- `BookingTransaction.state`. -/
inductive TxState where
  | pending
  | held
  | confirmed
  | rolledBack
  | failed
deriving DecidableEq, Repr

/-- A provider call issued by the booking agent, with the provider
reference id it targets. -/
inductive ProviderCall where
  | hold (offer_id : String)
  | confirm (hold_id : String)
  | release (hold_id : String)
deriving DecidableEq, Repr

/-- The booking-capable Tool Adapter as an oracle: the outcome of each
provider call. `holdOutcome` yields the provider's `hold_id` on success;
`confirmOk`/`releaseOk` report success of confirm/release on a given
`hold_id` (a timeout counts as failure). -/
structure BookingAdapter where
  holdOutcome : String → Option String
  confirmOk : String → Bool
  releaseOk : String → Bool

/-- Modelled from the spec: run one `BookingTransaction` for `offer_id`
against `adapter`. Returns the final state and the ordered list of
provider calls issued. -/
def runBooking (adapter : BookingAdapter) (offer_id : String) :
    TxState × List ProviderCall :=
  match adapter.holdOutcome offer_id with
  | none => (TxState.failed, [ProviderCall.hold offer_id])
  | some hid =>
    if adapter.confirmOk hid then
      (TxState.confirmed, [ProviderCall.hold offer_id, ProviderCall.confirm hid])
    else if adapter.releaseOk hid then
      (TxState.rolledBack,
        [ProviderCall.hold offer_id, ProviderCall.confirm hid,
         ProviderCall.release hid])
    else
      (TxState.failed,
        [ProviderCall.hold offer_id, ProviderCall.confirm hid,
         ProviderCall.release hid])

/-! ## Helper lemmas -/

/-- A successful association-list lookup exhibits membership. -/
theorem mem_of_lookup_eq_some {β : Type} (uid : String)
    (l : List (String × β)) (b : β)
    (h : List.lookup uid l = some b) : (uid, b) ∈ l := by
  induction l with
  | nil => simp [List.lookup] at h
  | cons e l ih =>
    rw [List.lookup] at h
    by_cases he : uid = e.1
    · simp [he] at h
      subst h
      subst he
      simp
    · rw [show (uid == e.1) = false by simpa using he] at h
      exact List.mem_cons_of_mem _ (ih h)

/-- A failed association-list lookup means the key is absent. -/
theorem lookup_eq_none_forall {β : Type} (uid : String)
    (l : List (String × β))
    (h : List.lookup uid l = none) : ∀ b : β, (uid, b) ∉ l := by
  induction l with
  | nil => simp
  | cons e l ih =>
    rw [List.lookup] at h
    by_cases he : uid = e.1
    · rw [show (uid == e.1) = true by simpa using he] at h
      cases h
    · rw [show (uid == e.1) = false by simpa using he] at h
      intro b hb
      rcases List.mem_cons.1 hb with hb | hb
      · exact he (by rw [← hb])
      · exact ih h b hb

/-- Looking up `i` in the association list that tabulates `f` over any
index list containing `i` yields `f i`. -/
theorem lookup_index_map {β : Type} (f : Nat → β) (l : List Nat) (i : Nat)
    (hi : i ∈ l) :
    List.lookup i (l.map fun j => (j, f j)) = some (f i) := by
  induction l with
  | nil => cases hi
  | cons j l ih =>
    rw [List.map_cons, List.lookup]
    by_cases he : i = j
    · simp [he]
    · rw [show (i == j) = false by simpa using he]
      exact ih (by rcases List.mem_cons.1 hi with h | h; exact absurd h he; exact h)

/-- Reading a list back through positional `getD` over its index range
reproduces the list (under any map). -/
theorem map_getD_range {α β : Type} (f : α → β) (d : α) (l : List α) :
    (List.range l.length).map (fun i => f (l.getD i d)) = l.map f := by
  induction l with
  | nil => rfl
  | cons a l ih =>
    rw [List.length_cons, List.range_succ_eq_map, List.map_cons, List.map_map]
    simp only [Function.comp_def, List.getD_cons_succ, List.getD_cons_zero]
    rw [List.map_cons, ih]

/-! ## C10 — HotelCard amenities -/

/-- C10: `HotelCard` displays at most the first 4 entries of the
amenities array, in array order (a prefix of the array, so nothing is
reordered or altered); an offer with at most 4 amenities shows all of
them. -/
theorem hotelCard_amenities_first_four (hotel : HotelOffer) :
    (displayedAmenities hotel).length = min 4 hotel.amenities.length ∧
    displayedAmenities hotel <+: hotel.amenities ∧
    (hotel.amenities.length ≤ 4 → displayedAmenities hotel = hotel.amenities) :=
  ⟨List.length_take .., List.take_prefix .., fun h => List.take_of_length_le h⟩

/-- Witness for C10 at a concrete hotel offer with six amenities. -/
theorem hotelCard_amenities_first_four_witness :
    (displayedAmenities
        { name := "The Taj Mahal Palace", location := "Mumbai", rating := 4,
          price := 12000,
          amenities := ["WiFi", "Pool", "Spa", "Gym", "Bar", "Parking"] }).length =
      min 4 6 ∧
    displayedAmenities
        { name := "The Taj Mahal Palace", location := "Mumbai", rating := 4,
          price := 12000,
          amenities := ["WiFi", "Pool", "Spa", "Gym", "Bar", "Parking"] } <+:
      ["WiFi", "Pool", "Spa", "Gym", "Bar", "Parking"] :=
  ⟨(hotelCard_amenities_first_four _).1, (hotelCard_amenities_first_four _).2.1⟩

/-! ## C9 — send guard in the chat client -/

/-- C9: `handleSendMessage` returns immediately — message list unchanged
and no network request issued — whenever the trimmed input is empty, a
request is already in flight, or no session id has been obtained. -/
theorem handleSendMessage_guard (st : ChatState) (now : Nat)
    (fetch : FetchOutcome)
    (h : st.inputValue.trim = "" ∨ st.isLoading = true ∨ st.sessionId = none) :
    handleSendMessage st now fetch = (st, none) := by
  cases hs : st.sessionId with
  | none => simp [handleSendMessage, hs]
  | some sid =>
    rcases h with h | h | h
    · simp [handleSendMessage, hs, h]
    · simp [handleSendMessage, hs, h]
    · rw [hs] at h
      cases h

/-- Witness for C9 at a concrete state with a pending request in
flight. -/
theorem handleSendMessage_guard_witness :
    handleSendMessage
        { messages := [], inputValue := "book a flight", isLoading := true,
          sessionId := some "s1", userId := "u1" } 5
        (FetchOutcome.failure "boom") =
      ({ messages := [], inputValue := "book a flight", isLoading := true,
         sessionId := some "s1", userId := "u1" }, none) :=
  handleSendMessage_guard _ _ _ (Or.inr (Or.inl rfl))

/-! ## C4 — chat endpoint shape -/

/-- C4: the create-session call stores the returned session identifier in
the client; every chat message carries a text `content`, its optional
`dataType` ranges over exactly flights, hotels and booking-confirmation,
and the client's AI message takes its text from the response's text
field when that text is non-empty (JavaScript `||` falls back on an
absent or empty string), so the displayed text is never empty. -/
theorem chat_endpoint_shape :
    (∀ (prev : Option String) (resp : SessionResponse),
      initializeSession prev true resp = some resp.session_id) ∧
    (∀ pt : PayloadType,
      pt = PayloadType.flights ∨ pt = PayloadType.hotels ∨
        pt = PayloadType.bookingConfirmation) ∧
    (∀ (resp : ChatResponse) (now : Nat) (t : String),
      resp.response = some t → t ≠ "" → (mkAiMessage resp now).content = t) ∧
    (∀ (resp : ChatResponse) (now : Nat), (mkAiMessage resp now).content ≠ "") ∧
    (∀ (resp : ChatResponse) (now : Nat), (mkAiMessage resp now).type = Role.ai) := by
  refine ⟨fun prev resp => rfl, fun pt => ?_, fun resp now t ht hne => ?_,
    fun resp now => ?_, fun resp now => rfl⟩
  · cases pt
    · exact Or.inl rfl
    · exact Or.inr (Or.inl rfl)
    · exact Or.inr (Or.inr rfl)
  · simp [mkAiMessage, ht, hne]
  · cases hr : resp.response with
    | none =>
        simp only [mkAiMessage, hr]
        decide
    | some t =>
        by_cases hte : t = ""
        · simp only [mkAiMessage, hr, hte, if_pos rfl]
          decide
        · simp only [mkAiMessage, hr, if_neg hte]
          exact hte

/-- Witness for C4 at a concrete session response and chat response. -/
theorem chat_endpoint_shape_witness :
    initializeSession none true { session_id := "sess-1" } = some "sess-1" ∧
    (mkAiMessage { response := some "Here are your flights." } 9).content =
      "Here are your flights." :=
  ⟨chat_endpoint_shape.1 none { session_id := "sess-1" },
   chat_endpoint_shape.2.2.1 { response := some "Here are your flights." } 9
     "Here are your flights." rfl (by decide)⟩

/-! ## C5 — flights payload rendered unmodified, in order -/

/-- C5: a message tagged `flights` renders exactly one `FlightCard` per
element of its data array, in array order, each wrapping the offer
unmodified; in particular the Orchestrator's flights message (the
adapter's offer list, attached unmodified) renders that list as-is. -/
theorem flights_rendered_in_order (m : Message) (offers : List FlightOffer)
    (text : String) (now : Nat)
    (hdt : m.dataType = some PayloadType.flights)
    (hd : m.data = some (Payload.flightList offers)) :
    renderCards m = offers.map Card.flightCard ∧
    (renderCards m).length = offers.length ∧
    renderCards (orchestratorFlightsMessage text offers now) =
      offers.map Card.flightCard := by
  have hr : renderCards m = offers.map Card.flightCard := by
    simp [renderCards, hdt, hd]
  exact ⟨hr, by rw [hr, List.length_map], rfl⟩

/-- Witness for C5 at a concrete two-offer flights message. -/
theorem flights_rendered_in_order_witness :
    renderCards (orchestratorFlightsMessage "I found these flights for you:"
        [{ airline := "IndiGo", flightNumber := "6E-2045", fromCity := "DEL",
           toCity := "BOM", departure := "08:30", arrival := "10:45",
           duration := "2h 15m", price := 4500, date := "Dec 25, 2025" },
         { airline := "Air India", flightNumber := "AI-805", fromCity := "DEL",
           toCity := "BOM", departure := "09:00", arrival := "11:20",
           duration := "2h 20m", price := 5100, date := "Dec 25, 2025" }] 7) =
      [Card.flightCard
        { airline := "IndiGo", flightNumber := "6E-2045", fromCity := "DEL",
          toCity := "BOM", departure := "08:30", arrival := "10:45",
          duration := "2h 15m", price := 4500, date := "Dec 25, 2025" },
       Card.flightCard
        { airline := "Air India", flightNumber := "AI-805", fromCity := "DEL",
          toCity := "BOM", departure := "09:00", arrival := "11:20",
          duration := "2h 20m", price := 5100, date := "Dec 25, 2025" }] :=
  (flights_rendered_in_order (orchestratorFlightsMessage _ _ 7) _
    "I found these flights for you:" 7 rfl rfl).1

/-! ## C6 — error message content -/

set_option maxRecDepth 40000 in
/-- C6 counterexample: at the concrete error "ECONNREFUSED", the message
the client appends is not free of internal detail — it contains the
exception message and the backend address verbatim. -/
theorem error_message_leaks_detail :
    (mkErrorMessage "ECONNREFUSED" 5).content =
      errorMessageContent "ECONNREFUSED" ∧
    containsSub (errorMessageContent "ECONNREFUSED") "ECONNREFUSED" ∧
    containsSub (errorMessageContent "ECONNREFUSED") API_BASE_URL := by
  refine ⟨rfl, ?_, ?_⟩ <;> · unfold containsSub
                             decide

/-- C6 amended: on a failed `/chat` request the client's appended message
is an apology that embeds the caught error's message and the backend API
base URL, rather than suppressing internal detail. -/
theorem error_message_embeds_detail (e : String) (now : Nat) :
    (mkErrorMessage e now).content = errorMessageContent e ∧
    (mkErrorMessage e now).type = Role.ai ∧
    containsSub (errorMessageContent e) e ∧
    containsSub (errorMessageContent e) API_BASE_URL := by
  refine ⟨rfl, rfl, ?_, ?_⟩
  · exact ⟨"I'm sorry, I encountered an error: ".data,
      (". Please make sure the backend API is running on " ++ API_BASE_URL).data,
      by simp [errorMessageContent, String.data_append]⟩
  · exact ⟨("I'm sorry, I encountered an error: " ++ e ++
        ". Please make sure the backend API is running on ").data, [],
      by simp [errorMessageContent, String.data_append]⟩

/-! ## C8 — turn history append-only -/

/-- Replaying appends extends the initial history on the right, in append
order. -/
theorem replayAppends_eq (init ts : List Turn) :
    replayAppends init ts = init ++ ts := by
  induction ts generalizing init with
  | nil => simp [replayAppends]
  | cons t ts ih =>
    simp only [replayAppends, List.foldl_cons] at ih ⊢
    rw [ih (appendTurn init t)]
    simp [appendTurn]

/-- C8: the turn history is append-only — replaying any append sequence
reads back exactly the append order after the untouched initial history,
`append_turn` never mutates or drops an existing turn, and the chat
client's `handleSendMessage` likewise only ever appends to its message
list. -/
theorem turn_history_append_only (init ts : List Turn) (st : ChatState)
    (now : Nat) (fetch : FetchOutcome) :
    replayAppends init ts = init ++ ts ∧
    (∀ (history : List Turn) (t : Turn), history <+: appendTurn history t) ∧
    st.messages <+: (handleSendMessage st now fetch).1.messages := by
  refine ⟨replayAppends_eq init ts,
    fun history t => List.prefix_append history [t], ?_⟩
  cases hs : st.sessionId with
  | none => simp [handleSendMessage, hs]
  | some sid =>
    by_cases hguard : st.inputValue.trim = "" ∨ st.isLoading = true
    · simp [handleSendMessage, hs, hguard]
    · cases fetch <;>
        simp [handleSendMessage, hs, hguard, List.prefix_append]

/-! ## C7 — session idempotence and eviction -/

/-- Refreshing a user's activity time only changes that user's
last-active field in the lookup result. -/
theorem lookup_refreshUser (l : List (String × SessionEntry)) (uid : String)
    (now : Nat) :
    List.lookup uid (refreshUser l uid now) =
      (List.lookup uid l).map (fun e => { e with lastActive := now }) := by
  induction l with
  | nil => rfl
  | cons e l ih =>
    obtain ⟨k, w⟩ := e
    by_cases he : k = uid
    · subst he
      simp [refreshUser, List.lookup_cons]
    · simp only [refreshUser, List.map_cons, if_neg he, List.lookup_cons,
        show (uid == k) = false by simpa using Ne.symm he]
      simpa [refreshUser] using ih

/-- After a refresh, every entry of the refreshed user carries the new
activity time. -/
theorem mem_refreshUser (l : List (String × SessionEntry)) (uid : String)
    (now : Nat) (v : SessionEntry)
    (h : (uid, v) ∈ refreshUser l uid now) : v.lastActive = now := by
  induction l with
  | nil => cases h
  | cons e l ih =>
    obtain ⟨k, w⟩ := e
    simp only [refreshUser, List.map_cons] at h
    rcases List.mem_cons.1 h with h1 | h1
    · by_cases he : k = uid
      · rw [if_pos he] at h1
        have h2 : v = { w with lastActive := now } := (Prod.mk.injEq .. ▸ h1 : _ ∧ _).2
        rw [h2]
      · rw [if_neg he] at h1
        exact absurd ((Prod.mk.injEq .. ▸ h1 : _ ∧ _).1).symm he
    · exact ih h1

/-- A key all of whose entries fail the filter is absent from the
filtered association list. -/
theorem lookup_filter_none {β : Type} (uid : String) (p : String × β → Bool)
    (l : List (String × β))
    (h : ∀ v : β, (uid, v) ∈ l → p (uid, v) = false) :
    List.lookup uid (l.filter p) = none := by
  induction l with
  | nil => rfl
  | cons e l ih =>
    obtain ⟨k, w⟩ := e
    by_cases hp : p (k, w)
    · rw [List.filter_cons_of_pos hp, List.lookup_cons]
      have hk : (uid == k) = false := by
        by_cases he : uid = k
        · subst he
          exact absurd hp (by simp [h w (List.mem_cons_self _ _)])
        · simpa using he
      rw [hk]
      exact ih fun v hv => h v (List.mem_cons_of_mem _ hv)
    · rw [List.filter_cons_of_neg (by simpa using hp)]
      exact ih fun v hv => h v (List.mem_cons_of_mem _ hv)

/-- `create_or_get` on a live session refreshes it and returns its id. -/
theorem createOrGet_of_lookup_some (st : StoreState) (uid : String)
    (now : Nat) (e : SessionEntry) (h : List.lookup uid st.table = some e) :
    createOrGet st uid now =
      ({ st with table := refreshUser st.table uid now }, e.sid) := by
  unfold createOrGet
  rw [h]

/-- `create_or_get` with no live session issues the fresh counter id. -/
theorem createOrGet_of_lookup_none (st : StoreState) (uid : String)
    (now : Nat) (h : List.lookup uid st.table = none) :
    createOrGet st uid now =
      ({ table := (uid, ⟨st.nextId, now⟩) :: st.table,
         nextId := st.nextId + 1 }, st.nextId) := by
  unfold createOrGet
  rw [h]

/-- C7: for a well-formed store, `create_or_get` is idempotent per
`user_id` — an immediately repeated call returns the same session id —
and once the session has been evicted for idleness (idle beyond the
threshold), `create_or_get` for the same `user_id` returns a different,
fresh session id. -/
theorem createOrGet_lifecycle (st : StoreState) (uid : String)
    (now now2 now3 threshold : Nat) (st1 : StoreState) (sid1 : Nat)
    (hInv : st.Inv) (h1 : createOrGet st uid now = (st1, sid1)) :
    (createOrGet st1 uid now2).2 = sid1 ∧
    (threshold < now2 - now →
      (createOrGet (evictIdle st1 now2 threshold) uid now3).2 ≠ sid1) := by
  cases h : List.lookup uid st.table with
  | some e =>
    rw [createOrGet_of_lookup_some st uid now e h] at h1
    injection h1 with hst1 hsid1
    have htab : st1.table = refreshUser st.table uid now := by rw [← hst1]
    have hnext : st1.nextId = st.nextId := by rw [← hst1]
    have hlook : List.lookup uid st1.table = some { e with lastActive := now } := by
      rw [htab, lookup_refreshUser, h]
      rfl
    have hlt : e.sid < st.nextId :=
      hInv (uid, e) (mem_of_lookup_eq_some _ _ _ h)
    constructor
    · rw [createOrGet_of_lookup_some _ _ _ _ hlook]
      exact hsid1
    · intro hidle
      have hall : ∀ v : SessionEntry, (uid, v) ∈ st1.table →
          (decide (now2 - v.lastActive ≤ threshold)) = false := by
        intro v hv
        rw [htab] at hv
        have hla := mem_refreshUser _ _ _ _ hv
        simp only [decide_eq_false_iff_not, hla]
        omega
      have hnone : List.lookup uid (evictIdle st1 now2 threshold).table = none := by
        show List.lookup uid (st1.table.filter _) = none
        exact lookup_filter_none _ _ _ hall
      rw [createOrGet_of_lookup_none _ _ _ hnone]
      show (evictIdle st1 now2 threshold).nextId ≠ sid1
      show st1.nextId ≠ sid1
      rw [hnext, ← hsid1]
      omega
  | none =>
    rw [createOrGet_of_lookup_none st uid now h] at h1
    injection h1 with hst1 hsid1
    have htab : st1.table = (uid, ⟨st.nextId, now⟩) :: st.table := by rw [← hst1]
    have hnext : st1.nextId = st.nextId + 1 := by rw [← hst1]
    have hlook : List.lookup uid st1.table = some ⟨st.nextId, now⟩ := by
      rw [htab, List.lookup_cons]
      simp
    constructor
    · rw [createOrGet_of_lookup_some _ _ _ _ hlook]
      exact hsid1
    · intro hidle
      have hall : ∀ v : SessionEntry, (uid, v) ∈ st1.table →
          (decide (now2 - v.lastActive ≤ threshold)) = false := by
        intro v hv
        rw [htab] at hv
        rcases List.mem_cons.1 hv with hv | hv
        · have hv2 : v = ⟨st.nextId, now⟩ := (Prod.mk.injEq .. ▸ hv : _ ∧ _).2
          rw [hv2]
          simp only [decide_eq_false_iff_not]
          omega
        · exact absurd hv (lookup_eq_none_forall _ _ h v)
      have hnone : List.lookup uid (evictIdle st1 now2 threshold).table = none := by
        show List.lookup uid (st1.table.filter _) = none
        exact lookup_filter_none _ _ _ hall
      rw [createOrGet_of_lookup_none _ _ _ hnone]
      show (evictIdle st1 now2 threshold).nextId ≠ sid1
      show st1.nextId ≠ sid1
      rw [hnext, ← hsid1]
      omega

/-- Witness for C7 from the empty store: same id on the repeated call,
a different id after idling past the threshold. -/
theorem createOrGet_lifecycle_witness :
    (createOrGet (createOrGet StoreState.empty "u1" 10).1 "u1" 20).2 =
      (createOrGet StoreState.empty "u1" 10).2 ∧
    (5 < 100 - 10 →
      (createOrGet (evictIdle (createOrGet StoreState.empty "u1" 10).1 100 5)
          "u1" 200).2 ≠ (createOrGet StoreState.empty "u1" 10).2) :=
  createOrGet_lifecycle StoreState.empty "u1" 10 100 200 5
    (createOrGet StoreState.empty "u1" 10).1
    (createOrGet StoreState.empty "u1" 10).2
    (by intro e he; cases he) rfl

/-! ## C2 — parallel dispatch slot order -/

/-- C2: for any completion schedule that is a permutation of the slot
indices, `dispatch_many` returns exactly one result per request, in the
caller's slot order — independent of the completion order — and a failed
or timed-out call contributes a `status = error` result in its slot
rather than aborting the batch. -/
theorem dispatchMany_slot_order (attempt : ToolCall → CallAttempt)
    (requests : List ToolCall) (sched : List Nat)
    (hperm : sched.Perm (List.range requests.length)) :
    dispatchMany attempt requests sched =
      requests.map (fun c => resultOfAttempt (attempt c)) ∧
    (dispatchMany attempt requests sched).length = requests.length ∧
    (∀ (c : ToolCall) (err : String) (lat : Nat),
      attempt c = CallAttempt.failed err lat →
      (resultOfAttempt (attempt c)).status = ToolStatus.error) := by
  have hmain : dispatchMany attempt requests sched =
      requests.map (fun c => resultOfAttempt (attempt c)) := by
    unfold dispatchMany
    have h2 : (List.range requests.length).map
        (fun i => (List.lookup i
            (sched.map fun j => (j, slotResult attempt requests j))).getD
          (slotResult attempt requests i)) =
        (List.range requests.length).map
          (fun i => slotResult attempt requests i) := by
      apply List.map_congr_left
      intro i hi
      rw [lookup_index_map _ _ _ (hperm.mem_iff.2 hi)]
      rfl
    rw [h2]
    have h3 := map_getD_range (fun c => resultOfAttempt (attempt c))
      ⟨"", ""⟩ requests
    simpa [slotResult] using h3
  refine ⟨hmain, by rw [hmain, List.length_map], fun c err lat hc => ?_⟩
  rw [hc]
  rfl

/-- Witness for C2: a three-call batch whose middle call fails and whose
completion schedule finishes slot 1 first still yields results in slot
order with an error result in slot 1. -/
theorem dispatchMany_slot_order_witness :
    dispatchMany
        (fun c => if c.tool_name = "hotel_search"
          then CallAttempt.failed "timeout" 30
          else CallAttempt.succeeded ("ok:" ++ c.tool_name) 2)
        [⟨"flight_search", "DEL-BOM"⟩, ⟨"hotel_search", "Goa"⟩,
         ⟨"place_search", "Goa"⟩]
        [1, 0, 2] =
      [⟨ToolStatus.ok, "ok:flight_search", 2⟩,
       ⟨ToolStatus.error, "timeout", 30⟩,
       ⟨ToolStatus.ok, "ok:place_search", 2⟩] :=
  (dispatchMany_slot_order _ _ _ (by decide)).1.trans (by rfl)

/-! ## C3 — loop agent termination -/

/-- C3: every Loop/Refinement run makes at most `N_max` invocations of
the wrapped Reasoning Agent, and its outcome is always a final response,
a clarification suspension, or the best-effort cap summary — never an
error and never an unbounded loop. -/
theorem loopRun_bounded {Ctx : Type} (agent : Ctx → AgentDecision)
    (fold : Ctx → String → String → Ctx) (summary : Ctx → String)
    (Nmax : Nat) (ctx : Ctx) :
    (loopRun agent fold summary Nmax ctx).2 ≤ Nmax ∧
    ((∃ t, (loopRun agent fold summary Nmax ctx).1 = LoopOutcome.responded t) ∨
     (∃ t, (loopRun agent fold summary Nmax ctx).1 = LoopOutcome.clarify t) ∨
     (∃ t, (loopRun agent fold summary Nmax ctx).1 = LoopOutcome.capSummary t)) := by
  constructor
  · induction Nmax generalizing ctx with
    | zero => simp [loopRun]
    | succ n ih =>
      cases hd : agent ctx with
      | respond t => simp [loopRun, hd]
      | askClarification t => simp [loopRun, hd]
      | callTool a b =>
        simp only [loopRun, hd]
        exact Nat.succ_le_succ (ih (fold ctx a b))
      | delegate a b =>
        simp only [loopRun, hd]
        exact Nat.succ_le_succ (ih (fold ctx a b))
  · cases h : (loopRun agent fold summary Nmax ctx).1 with
    | responded t => exact Or.inl ⟨t, rfl⟩
    | clarify t => exact Or.inr (Or.inl ⟨t, rfl⟩)
    | capSummary t => exact Or.inr (Or.inr ⟨t, rfl⟩)

/-! ## C1 — booking compensation -/

/-- C1: when the `Held → Confirmed` step fails (including by timeout),
the booking agent issues a `release` call against the exact `hold_id`
obtained in the Held step; the final state is `RolledBack` when the
release succeeds and `Failed` when the release itself fails — in either
case a terminal, surfaced state, never a silently dropped hold. -/
theorem booking_compensation (adapter : BookingAdapter)
    (offer_id hid : String)
    (hhold : adapter.holdOutcome offer_id = some hid)
    (hconf : adapter.confirmOk hid = false) :
    ProviderCall.release hid ∈ (runBooking adapter offer_id).2 ∧
    (adapter.releaseOk hid = true →
      (runBooking adapter offer_id).1 = TxState.rolledBack) ∧
    (adapter.releaseOk hid = false →
      (runBooking adapter offer_id).1 = TxState.failed) ∧
    ((runBooking adapter offer_id).1 = TxState.rolledBack ∨
     (runBooking adapter offer_id).1 = TxState.failed) := by
  unfold runBooking
  rw [hhold]
  cases hr : adapter.releaseOk hid <;> simp [hconf, hr]

/-- Witness for C1 at a concrete adapter whose confirm call fails and
whose release succeeds. -/
theorem booking_compensation_witness :
    ProviderCall.release "H42" ∈
      (runBooking
        { holdOutcome := fun _ => some "H42",
          confirmOk := fun _ => false,
          releaseOk := fun _ => true } "OFFER-1").2 ∧
    (runBooking
        { holdOutcome := fun _ => some "H42",
          confirmOk := fun _ => false,
          releaseOk := fun _ => true } "OFFER-1").1 = TxState.rolledBack :=
  ⟨(booking_compensation _ "OFFER-1" "H42" rfl rfl).1,
   (booking_compensation _ "OFFER-1" "H42" rfl rfl).2.1 rfl⟩

end GenAIAlchemist
